import Mathlib

/-!
Shallow embedding of the particle-field core of the `xingkong` repository:
the per-frame particle update in `StarryField` (`useFrame` callback), the
pointer-map interaction aggregator in `App.tsx`, the gesture wind smoother,
and the particle-store initialization, all over real arithmetic.
-/

namespace Xingkong

noncomputable section

/-- JS `Math.atan2(y, x)`, embedded as the argument of the complex number
`x + y*i` (which agrees with `atan2` on every input, including `(0,0) ↦ 0`). -/
def atan2 (y x : ℝ) : ℝ := Complex.arg ((x : ℝ) + (y : ℝ) * Complex.I)

/-- A 3D vector, the position triple of one particle in the attribute arrays. -/
structure Vec3 where
  x : ℝ
  y : ℝ
  z : ℝ

/-- An entry of the `interactionPoints` map: normalized position and the
per-sample velocity, as stored by the pointer handlers in `App.tsx`. -/
structure RawPoint where
  x : ℝ
  y : ℝ
  vx : ℝ
  vy : ℝ

/-- One element of the precomputed `activePoints` array in the `useFrame`
callback: world-scaled position plus scalar speed `v = sqrt(vx²+vy²)`. -/
structure ActivePoint where
  x : ℝ
  y : ℝ
  v : ℝ

/-- The `handInfluence` ref consumed by `StarryField` each frame. -/
structure HandInfluence where
  x : ℝ
  y : ℝ
  vx : ℝ
  vy : ℝ
  active : Bool

/-- `lerp` from `utils/math.ts`: `a + (b - a) * t` (the same formula as
`THREE.MathUtils.lerp` used in the frame callback). -/
def lerp (a b t : ℝ) : ℝ := a + (b - a) * t

/-- `randomRange` from `utils/math.ts`, with the `Math.random()` draw made
an explicit argument `r`: `r * (max - min) + min`. -/
def randomRange (min max r : ℝ) : ℝ := r * (max - min) + min

/-- The precomputation of `activePoints` at the top of the `useFrame`
callback: scale the normalized position by half the viewport and collapse
the velocity to its euclidean speed. -/
def toActivePoint (viewportW viewportH : ℝ) (p : RawPoint) : ActivePoint :=
  ⟨p.x * viewportW / 2, p.y * viewportH / 2,
   Real.sqrt (p.vx * p.vx + p.vy * p.vy)⟩

/-- `targetWind` from the `useFrame` callback:
`handInfluence.current.active ? handInfluence.current.vx * -15 : 0`. -/
def targetWind (hand : HandInfluence) : ℝ :=
  if hand.active then hand.vx * (-15) else 0

/-- The body of the `activePoints.forEach` in the per-particle loop: the
attraction/repulsion displacement one interaction point applies to the
running `(targetX, targetY)` pair. -/
def applyInteraction (p : ActivePoint) (acc : ℝ × ℝ) : ℝ × ℝ :=
  let dx := acc.1 - p.x
  let dy := acc.2 - p.y
  let mouseDist := Real.sqrt (dx * dx + dy * dy)
  let influenceRadius := 4 + p.v * 10
  if mouseDist < influenceRadius then
    let factor := (influenceRadius - mouseDist) / influenceRadius
    (acc.1 + dx * factor * (0.3 + p.v * 2), acc.2 + dy * factor * (0.3 + p.v * 2))
  else acc

/-- One iteration of the per-particle loop in the `useFrame` callback of
`StarryField`: baseline vortex rotation and vertical breathing from the
initial position, the sequential interaction-point displacement, and the
final wind term added to the x component. -/
def updateParticle (time : ℝ) (activePoints : List ActivePoint)
    (windVelocity : ℝ) (p0 : Vec3) : Vec3 :=
  let x := p0.x
  let y := p0.y
  let z := p0.z
  let dist := Real.sqrt (x * x + y * y)
  let angle := atan2 y x
  let vortex := Real.sin (time * 0.1 + dist * 0.3) * 0.5
  let rotationSpeed := (0.04 + vortex * 0.02) * (1.0 / (dist * 0.1 + 1.0))
  let currentAngle := angle + time * rotationSpeed
  let targetX := Real.cos currentAngle * dist
  let targetY := Real.sin currentAngle * dist
  let targetZ := z + Real.sin (time * 0.5 + dist * 0.5) * 0.3
  let xy := activePoints.foldl (fun acc p => applyInteraction p acc) (targetX, targetY)
  ⟨xy.1 + windVelocity * (1.0 - dist / 20.0), xy.2, targetZ⟩

/-- The mutable state touched by one `useFrame` invocation: the attribute
arrays of the particle store, the smoothed wind scalar, and the scene
rotation. `initialPositions` is the immutable baseline captured at init. -/
structure FrameState where
  initialPositions : List Vec3
  positions : List Vec3
  colors : List Vec3
  sizes : List ℝ
  phases : List ℝ
  angles : List ℝ
  windVelocity : ℝ
  rotationZ : ℝ

/-- One full `useFrame` invocation of `StarryField`: smooth the wind toward
`targetWind` with α = 0.05, recompute every particle position from the
initial positions, and advance the scene rotation by
`0.001 + |windVelocity| * 0.005`. -/
def useFrameStep (time viewportW viewportH : ℝ)
    (interactionPoints : List RawPoint) (handInfluence : HandInfluence)
    (s : FrameState) : FrameState :=
  let activePoints := interactionPoints.map (toActivePoint viewportW viewportH)
  let wind := lerp s.windVelocity (targetWind handInfluence) 0.05
  { s with
    positions := s.initialPositions.map (updateParticle time activePoints wind)
    windVelocity := wind
    rotationZ := s.rotationZ + 0.001 + |wind| * 0.005 }

/-- One particle of the initialization loop in the `useMemo` of `StarryField`,
with the three `Math.random()` draws made explicit arguments:
`angle = rAngle·π·2`, `radius = randomRange(1,15)` at draw `rRadius`,
`z = (rZ − 0.5)·4`, position `(cos angle · radius, sin angle · radius, z)`. -/
def initParticle (rAngle rRadius rZ : ℝ) : Vec3 :=
  let angle := rAngle * Real.pi * 2
  let radius := randomRange 1 15 rRadius
  ⟨Real.cos angle * radius, Real.sin angle * radius, (rZ - 0.5) * 4⟩

/-- The two pointer maps kept by `App.tsx`: `interactionPoints` (the
velocity-bearing points read by the frame loop) and
`lastPointerPositions` (the raw previous positions used to derive
velocities). -/
structure PointerState where
  interactionPoints : Nat → Option RawPoint
  lastPointerPositions : Nat → Option (ℝ × ℝ)

/-- `handlePointerDown` from `App.tsx`: store the raw position and insert
the interaction point with `vx = vy = 0`. -/
def handlePointerDown (m : PointerState) (id : Nat) (x y : ℝ) : PointerState :=
  { interactionPoints := fun j =>
      if j = id then some ⟨x, y, 0, 0⟩ else m.interactionPoints j
    lastPointerPositions := fun j =>
      if j = id then some (x, y) else m.lastPointerPositions j }

/-- `handlePointerMove` from `App.tsx`: when a previous raw position is
stored, report `vx = x − lastX`, `vy = y − lastY` and update both maps;
otherwise do nothing. -/
def handlePointerMove (m : PointerState) (id : Nat) (x y : ℝ) : PointerState :=
  match m.lastPointerPositions id with
  | none => m
  | some last =>
      { interactionPoints := fun j =>
          if j = id then some ⟨x, y, x - last.1, y - last.2⟩
          else m.interactionPoints j
        lastPointerPositions := fun j =>
          if j = id then some (x, y) else m.lastPointerPositions j }

/-- `handlePointerUp` from `App.tsx`: delete the id from both maps. -/
def handlePointerUp (m : PointerState) (id : Nat) : PointerState :=
  { interactionPoints := fun j =>
      if j = id then none else m.interactionPoints j
    lastPointerPositions := fun j =>
      if j = id then none else m.lastPointerPositions j }

/-- The `upsert` operation of the aggregator as the spec describes it, assembled
from the source handlers: a fresh contact (id absent) goes through
`handlePointerDown`, a known contact through `handlePointerMove`. -/
def upsert (m : PointerState) (id : Nat) (x y : ℝ) : PointerState :=
  match m.lastPointerPositions id with
  | none => handlePointerDown m id x y
  | some _ => handlePointerMove m id x y

/-- 2D distance of the baseline of a particle from the origin, as the
loop variable `dist` computes it. -/
def dist2 (p0 : Vec3) : ℝ := Real.sqrt (p0.x * p0.x + p0.y * p0.y)

/-- The `currentAngle` value of the loop for particle `p0` at `time`. -/
def currentAngle (time : ℝ) (p0 : Vec3) : ℝ :=
  atan2 p0.y p0.x +
    time * ((0.04 + Real.sin (time * 0.1 + dist2 p0 * 0.3) * 0.5 * 0.02) *
      (1.0 / (dist2 p0 * 0.1 + 1.0)))

/-- The three-particle store of the end-to-end scenario in the spec. -/
def c1Init : List Vec3 := [⟨1, 0, 0⟩, ⟨0, 2, 0⟩, ⟨-3, 0, 1⟩]

/-- Frame state for the end-to-end scenario: wind 0, positions at baseline. -/
def c1State : FrameState := ⟨c1Init, c1Init, [], [], [], [], 0, 0⟩
/-- An inactive gesture signal. -/
def inactiveHand : HandInfluence := ⟨0, 0, 0, 0, false⟩
/-- Two demonstration states that differ in previous positions, colors and
rotation but agree on the baseline and the wind. -/
def s1demo : FrameState := ⟨[⟨1, 0, 0⟩], [⟨9, 9, 9⟩], [], [], [], [], 0, 0⟩

def s2demo : FrameState := ⟨[⟨1, 0, 0⟩], [], [⟨1, 1, 1⟩], [0.1], [2], [3], 0, 5⟩
/-- Pointer maps with no active contacts. -/
def emptyPointers : PointerState := ⟨fun _ => none, fun _ => none⟩
/-- State with a unit wind, for the C7 witness. -/
def s7demo : FrameState := ⟨[], [], [], [], [], [], 1, 0⟩
/-- An all-zero frame state. -/
def s0demo : FrameState := ⟨[], [], [], [], [], [], 0, 0⟩

lemma abs_eq_sqrt (x y : ℝ) :
    Complex.abs ((x : ℝ) + (y : ℝ) * Complex.I) = Real.sqrt (x * x + y * y) := by
  rw [Complex.abs_apply, Complex.normSq_apply]
  simp

lemma cos_atan2_mul (y x : ℝ) :
    Real.cos (atan2 y x) * Real.sqrt (x * x + y * y) = x := by
  by_cases h : ((x : ℝ) + (y : ℝ) * Complex.I : ℂ) = 0
  · have hx : x = 0 := by
      have := congrArg Complex.re h
      simpa using this
    have hy : y = 0 := by
      have := congrArg Complex.im h
      simpa using this
    simp [hx, hy]
  · have habs := abs_eq_sqrt x y
    have hne : Real.sqrt (x * x + y * y) ≠ 0 := by
      rw [← habs]
      exact Complex.abs.ne_zero h
    rw [atan2, Complex.cos_arg h, habs]
    field_simp

lemma sin_atan2_mul (y x : ℝ) :
    Real.sin (atan2 y x) * Real.sqrt (x * x + y * y) = y := by
  by_cases h : ((x : ℝ) + (y : ℝ) * Complex.I : ℂ) = 0
  · have hx : x = 0 := by
      have := congrArg Complex.re h
      simpa using this
    have hy : y = 0 := by
      have := congrArg Complex.im h
      simpa using this
    simp [hx, hy]
  · have habs := abs_eq_sqrt x y
    have hne : Real.sqrt (x * x + y * y) ≠ 0 := by
      rw [← habs]
      exact Complex.abs.ne_zero h
    rw [atan2, Complex.sin_arg, habs]
    field_simp

lemma radius_of_rot (θ d : ℝ) (hd : 0 ≤ d) :
    Real.sqrt (Real.cos θ * d * (Real.cos θ * d) + Real.sin θ * d * (Real.sin θ * d)) = d := by
  have h : Real.cos θ * d * (Real.cos θ * d) + Real.sin θ * d * (Real.sin θ * d)
      = d ^ 2 * (Real.sin θ ^ 2 + Real.cos θ ^ 2) := by ring
  rw [h, Real.sin_sq_add_cos_sq, mul_one, Real.sqrt_sq hd]

/-- With an empty interaction snapshot the loop body reduces to the baseline
rotation, the breathing term and the wind term. -/
lemma updateParticle_nil (time w : ℝ) (p0 : Vec3) :
    updateParticle time [] w p0 =
      ⟨Real.cos (currentAngle time p0) * dist2 p0 + w * (1.0 - dist2 p0 / 20.0),
       Real.sin (currentAngle time p0) * dist2 p0,
       p0.z + Real.sin (time * 0.5 + dist2 p0 * 0.5) * 0.3⟩ := by
  simp [updateParticle, currentAngle, dist2]

/-- At `time = 0` the baseline reproduces the initial x and y exactly. -/
lemma updateParticle_time_zero (w : ℝ) (p0 : Vec3) :
    updateParticle 0 [] w p0 =
      ⟨p0.x + w * (1.0 - dist2 p0 / 20.0), p0.y,
       p0.z + Real.sin (dist2 p0 * 0.5) * 0.3⟩ := by
  rw [updateParticle_nil]
  have hangle : currentAngle 0 p0 = atan2 p0.y p0.x := by
    simp [currentAngle]
  rw [hangle]
  have hx := cos_atan2_mul p0.y p0.x
  have hy := sin_atan2_mul p0.y p0.x
  simp only [dist2] at *
  rw [hx, hy]
  norm_num

/-- The difference between a frame with wind `w` and the zero-wind baseline,
for an empty snapshot, is exactly the wind term on the x coordinate. -/
lemma wind_disp (time w : ℝ) (p0 : Vec3) :
    (updateParticle time [] w p0).x - (updateParticle time [] 0 p0).x
      = w * (1.0 - dist2 p0 / 20.0) := by
  rw [updateParticle_nil, updateParticle_nil]
  ring

lemma dist2_mk (x0 y0 z0 : ℝ) :
    dist2 ⟨x0, y0, z0⟩ = Real.sqrt (x0 * x0 + y0 * y0) := rfl

/-- Concrete axis particles: the 2D distance is the |x| coordinate. -/
lemma dist2_xaxis (a z : ℝ) (ha : 0 ≤ a) : dist2 ⟨a, 0, z⟩ = a := by
  rw [dist2_mk]
  simpa using Real.sqrt_mul_self ha

lemma dist2_yaxis (b z : ℝ) (hb : 0 ≤ b) : dist2 ⟨0, b, z⟩ = b := by
  rw [dist2_mk]
  simpa using Real.sqrt_mul_self hb

lemma dist2_negx (a z : ℝ) (ha : 0 ≤ a) : dist2 ⟨-a, 0, z⟩ = a := by
  rw [dist2_mk]
  have h : -a * -a + 0 * 0 = a * a := by ring
  rw [h]
  exact Real.sqrt_mul_self ha

/-- The loop body as a record of its pieces: the fold of the interaction
displacements over the baseline pair, then the wind term and the z term. -/
lemma updateParticle_eq (time : ℝ) (activePoints : List ActivePoint)
    (w : ℝ) (p0 : Vec3) :
    updateParticle time activePoints w p0 =
      ⟨(activePoints.foldl (fun acc p => applyInteraction p acc)
          (Real.cos (currentAngle time p0) * dist2 p0,
           Real.sin (currentAngle time p0) * dist2 p0)).1
          + w * (1.0 - dist2 p0 / 20.0),
       (activePoints.foldl (fun acc p => applyInteraction p acc)
          (Real.cos (currentAngle time p0) * dist2 p0,
           Real.sin (currentAngle time p0) * dist2 p0)).2,
       p0.z + Real.sin (time * 0.5 + dist2 p0 * 0.5) * 0.3⟩ := rfl

/-- The origin point with speed zero scales a pair inside radius 4 by
`1 + 0.3·(4 − r)/4` and leaves pairs at radius ≥ 4 alone. -/
lemma applyInteraction_origin (a b : ℝ) :
    applyInteraction ⟨0, 0, 0⟩ (a, b) =
      if Real.sqrt (a * a + b * b) < 4 then
        (a * (1 + (4 - Real.sqrt (a * a + b * b)) / 4 * 0.3),
         b * (1 + (4 - Real.sqrt (a * a + b * b)) / 4 * 0.3))
      else (a, b) := by
  simp only [applyInteraction, sub_zero, mul_zero, add_zero, zero_mul]
  split_ifs with h
  · simp only [Prod.mk.injEq]
    constructor <;> ring
  · rfl

/-- A frame with exactly one interaction point at the origin with speed 0:
inside radius 4 the baseline x/y are scaled by `1 + 0.3·(4 − d)/4`; at or
beyond radius 4 the point has no effect. -/
lemma updateParticle_origin (time w : ℝ) (p0 : Vec3) :
    updateParticle time [⟨0, 0, 0⟩] w p0 =
      if dist2 p0 < 4 then
        ⟨Real.cos (currentAngle time p0) * dist2 p0 * (1 + (4 - dist2 p0) / 4 * 0.3)
           + w * (1.0 - dist2 p0 / 20.0),
         Real.sin (currentAngle time p0) * dist2 p0 * (1 + (4 - dist2 p0) / 4 * 0.3),
         p0.z + Real.sin (time * 0.5 + dist2 p0 * 0.5) * 0.3⟩
      else updateParticle time [] w p0 := by
  have hrot := radius_of_rot (currentAngle time p0) (dist2 p0) (Real.sqrt_nonneg _)
  rw [updateParticle_eq, updateParticle_nil]
  simp only [List.foldl_cons, List.foldl_nil, applyInteraction_origin, hrot]
  split_ifs with h
  · rfl
  · rfl

/-- In the scenario the smoothed wind stays `0` and the output positions are
the zero-wind, empty-snapshot update of the three initial positions. -/
lemma c1_positions :
    (useFrameStep 0 1 1 [] inactiveHand c1State).positions
      = c1Init.map (updateParticle 0 [] 0) := by
  have hw : lerp c1State.windVelocity (targetWind inactiveHand) 0.05 = 0 := by
    norm_num [lerp, targetWind, inactiveHand, c1State]
  simp [useFrameStep, hw]
  rfl

lemma c1_p1 : updateParticle 0 [] 0 ⟨1, 0, 0⟩ = ⟨1, 0, Real.sin 0.5 * 0.3⟩ := by
  rw [updateParticle_time_zero, dist2_xaxis 1 0 (by norm_num)]
  norm_num

lemma c1_p2 : updateParticle 0 [] 0 ⟨0, 2, 0⟩ = ⟨0, 2, Real.sin 1 * 0.3⟩ := by
  rw [updateParticle_time_zero, dist2_yaxis 2 0 (by norm_num)]
  norm_num

lemma c1_p3 : updateParticle 0 [] 0 ⟨-3, 0, 1⟩ = ⟨-3, 0, 1 + Real.sin 1.5 * 0.3⟩ := by
  rw [updateParticle_time_zero, dist2_negx 3 1 (by norm_num)]
  norm_num

/-- C1 (refutation): in the end-to-end scenario the claim says the output
position of particle 1 equals its input `(1,0,0)`; in fact its z is
`sin(0.5)·0.3 ≠ 0` — the z of every particle is shifted, not only that of
particle 3. -/
theorem C1_counterexample :
    ((useFrameStep 0 1 1 [] inactiveHand c1State).positions.headD ⟨0, 0, 0⟩).z ≠ 0 := by
  rw [c1_positions]
  simp [c1Init, c1_p1]
  have hs : 0 < Real.sin 0.5 :=
    Real.sin_pos_of_pos_of_lt_pi (by norm_num) (by linarith [Real.pi_gt_three])
  exact ⟨ne_of_gt hs, by norm_num⟩

/-- C1 (amended): one frame of the scenario keeps every x and y and shifts
the z of every particle by `sin(dist·0.5)·0.3`, giving
`[(1,0,sin 0.5·0.3), (0,2,sin 1·0.3), (−3,0,1+sin 1.5·0.3)]`. -/
theorem C1_end_to_end :
    (useFrameStep 0 1 1 [] inactiveHand c1State).positions =
      [⟨1, 0, Real.sin 0.5 * 0.3⟩, ⟨0, 2, Real.sin 1 * 0.3⟩,
       ⟨-3, 0, 1 + Real.sin 1.5 * 0.3⟩] := by
  rw [c1_positions]
  simp [c1Init, c1_p1, c1_p2, c1_p3]

/-- C2: with an empty snapshot and `windVelocity = 0` the frame update is
radius-preserving — `sqrt(x²+y²)` of the output equals `dist` of the initial
position — and the output z is exactly `z0 + sin(time·0.5 + dist·0.5)·0.3`,
a function of `time`, `z0` and `dist` alone (here exact: over ℝ the
floating-point tolerance of the source collapses to equality). -/
theorem C2_radius_preserving (time x0 y0 z0 : ℝ) :
    Real.sqrt
        ((updateParticle time [] 0 ⟨x0, y0, z0⟩).x * (updateParticle time [] 0 ⟨x0, y0, z0⟩).x
          + (updateParticle time [] 0 ⟨x0, y0, z0⟩).y * (updateParticle time [] 0 ⟨x0, y0, z0⟩).y)
      = Real.sqrt (x0 * x0 + y0 * y0) ∧
    (updateParticle time [] 0 ⟨x0, y0, z0⟩).z
      = z0 + Real.sin (time * 0.5 + Real.sqrt (x0 * x0 + y0 * y0) * 0.5) * 0.3 := by
  constructor
  · rw [updateParticle_nil]
    simp only [zero_mul, add_zero, mul_zero]
    have h := radius_of_rot (currentAngle time ⟨x0, y0, z0⟩) (dist2 ⟨x0, y0, z0⟩)
      (Real.sqrt_nonneg _)
    simpa [dist2] using h
  · rw [updateParticle_nil]
    simp [dist2]

/-- C3: one `useFrame` invocation is deterministic — two states agreeing on
the initial positions and the wind scalar produce identical output position
arrays and identical output wind, whatever their previous position arrays
and rotations were. -/
theorem C3_deterministic (time vw vh : ℝ) (pts : List RawPoint)
    (hand : HandInfluence) (s1 s2 : FrameState)
    (hinit : s1.initialPositions = s2.initialPositions)
    (hwind : s1.windVelocity = s2.windVelocity) :
    (useFrameStep time vw vh pts hand s1).positions =
      (useFrameStep time vw vh pts hand s2).positions ∧
    (useFrameStep time vw vh pts hand s1).windVelocity =
      (useFrameStep time vw vh pts hand s2).windVelocity := by
  simp [useFrameStep, hinit, hwind]

theorem C3_deterministic_witness :
    s1demo.initialPositions = s2demo.initialPositions ∧
    s1demo.windVelocity = s2demo.windVelocity ∧
    ((useFrameStep 1 2 2 [] inactiveHand s1demo).positions =
        (useFrameStep 1 2 2 [] inactiveHand s2demo).positions ∧
      (useFrameStep 1 2 2 [] inactiveHand s1demo).windVelocity =
        (useFrameStep 1 2 2 [] inactiveHand s2demo).windVelocity) :=
  ⟨rfl, rfl, C3_deterministic 1 2 2 [] inactiveHand s1demo s2demo rfl rfl⟩

/-- C4 (refutation): the wind effect does not vanish for `dist ≥ 20` — at a
particle of radius 40 with wind 1 the x coordinate moves by
`1·(1 − 40/20) = −1`, so the output differs from the zero-wind baseline. -/
theorem C4_counterexample :
    (20:ℝ) ≤ Real.sqrt ((40:ℝ) * 40 + 0 * 0) ∧
    (updateParticle 0 [] 1 ⟨40, 0, 0⟩).x ≠ (updateParticle 0 [] 0 ⟨40, 0, 0⟩).x := by
  have h40 : Real.sqrt ((40:ℝ) * 40 + 0 * 0) = 40 := by
    simpa using Real.sqrt_mul_self (by norm_num : (0:ℝ) ≤ 40)
  refine ⟨by rw [h40]; norm_num, ?_⟩
  have hd := wind_disp 0 1 ⟨40, 0, 0⟩
  rw [dist2_xaxis 40 0 (by norm_num)] at hd
  intro heq
  rw [heq] at hd
  norm_num at hd

/-- C4 (amended): with an empty snapshot the wind changes only x, by exactly
`windVelocity·(1 − dist/20)`; this is zero at `dist = 20`, is nonzero (with
reversed sign) for `dist > 20` and nonzero wind, and within `dist ≤ 20` its
magnitude strictly decreases with the radius — strongest near the center. -/
theorem C4_wind_displacement (time w x0 y0 z0 : ℝ) :
    (updateParticle time [] w ⟨x0, y0, z0⟩).x
        = (updateParticle time [] 0 ⟨x0, y0, z0⟩).x
          + w * (1.0 - Real.sqrt (x0 * x0 + y0 * y0) / 20.0) ∧
    (updateParticle time [] w ⟨x0, y0, z0⟩).y = (updateParticle time [] 0 ⟨x0, y0, z0⟩).y ∧
    (updateParticle time [] w ⟨x0, y0, z0⟩).z = (updateParticle time [] 0 ⟨x0, y0, z0⟩).z ∧
    (Real.sqrt (x0 * x0 + y0 * y0) = 20 →
      (updateParticle time [] w ⟨x0, y0, z0⟩).x = (updateParticle time [] 0 ⟨x0, y0, z0⟩).x) ∧
    (w ≠ 0 → 20 < Real.sqrt (x0 * x0 + y0 * y0) →
      (updateParticle time [] w ⟨x0, y0, z0⟩).x ≠ (updateParticle time [] 0 ⟨x0, y0, z0⟩).x) ∧
    (∀ x1 y1 : ℝ, w ≠ 0 →
      Real.sqrt (x1 * x1 + y1 * y1) < Real.sqrt (x0 * x0 + y0 * y0) →
      Real.sqrt (x0 * x0 + y0 * y0) ≤ 20 →
      |(updateParticle time [] w ⟨x1, y1, z0⟩).x - (updateParticle time [] 0 ⟨x1, y1, z0⟩).x|
        > |(updateParticle time [] w ⟨x0, y0, z0⟩).x - (updateParticle time [] 0 ⟨x0, y0, z0⟩).x|) := by
  have hd0 := wind_disp time w ⟨x0, y0, z0⟩
  rw [dist2_mk] at hd0
  refine ⟨by linarith, ?_, ?_, ?_, ?_, ?_⟩
  · rw [updateParticle_nil, updateParticle_nil]
  · rw [updateParticle_nil, updateParticle_nil]
  · intro h20
    rw [h20] at hd0
    have : w * (1.0 - (20:ℝ) / 20.0) = 0 := by norm_num
    linarith [hd0, this]
  · intro hw h20 heq
    rw [heq] at hd0
    have hfac : (1.0 : ℝ) - Real.sqrt (x0 * x0 + y0 * y0) / 20.0 < 0 := by
      have : (1:ℝ) < Real.sqrt (x0 * x0 + y0 * y0) / 20 := by linarith
      linarith
    rcases lt_or_gt_of_ne hw with hneg | hpos
    · nlinarith
    · nlinarith
  · intro x1 y1 hw hlt hle
    have hd1 := wind_disp time w ⟨x1, y1, z0⟩
    rw [dist2_mk] at hd1
    rw [hd0, hd1]
    have h1nn : (0:ℝ) ≤ Real.sqrt (x1 * x1 + y1 * y1) := Real.sqrt_nonneg _
    have hf0 : (0:ℝ) ≤ 1.0 - Real.sqrt (x0 * x0 + y0 * y0) / 20.0 := by linarith
    have hf1 : (0:ℝ) < 1.0 - Real.sqrt (x1 * x1 + y1 * y1) / 20.0 := by linarith
    rw [abs_mul, abs_mul, abs_of_nonneg hf0, abs_of_pos hf1]
    have hwpos : 0 < |w| := abs_pos.mpr hw
    have : (1.0 : ℝ) - Real.sqrt (x0 * x0 + y0 * y0) / 20.0
        < 1.0 - Real.sqrt (x1 * x1 + y1 * y1) / 20.0 := by linarith
    nlinarith

theorem C4_wind_displacement_witness :
    Real.sqrt ((20:ℝ) * 20 + 0 * 0) = 20 ∧
    (updateParticle 0 [] 1 ⟨20, 0, 0⟩).x = (updateParticle 0 [] 0 ⟨20, 0, 0⟩).x ∧
    |(updateParticle 0 [] 1 ⟨0, 0, 0⟩).x - (updateParticle 0 [] 0 ⟨0, 0, 0⟩).x|
      > |(updateParticle 0 [] 1 ⟨20, 0, 0⟩).x - (updateParticle 0 [] 0 ⟨20, 0, 0⟩).x| := by
  have h20 : Real.sqrt ((20:ℝ) * 20 + 0 * 0) = 20 := by
    simpa using Real.sqrt_mul_self (by norm_num : (0:ℝ) ≤ 20)
  have h00 : Real.sqrt ((0:ℝ) * 0 + 0 * 0) = 0 := by
    simpa using Real.sqrt_zero
  have hmain := C4_wind_displacement 0 1 20 0 0
  refine ⟨h20, hmain.2.2.2.1 h20, ?_⟩
  exact hmain.2.2.2.2.2 0 0 one_ne_zero (by rw [h00, h20]; norm_num) (le_of_eq h20)

/-- C5 (refutation): a particle exactly at the origin has `dist = 0 < 4`,
yet the origin interaction point does not displace it at all — the claimed
"every particle with dist < 4 is displaced away" fails at `dist = 0`. -/
theorem C5_counterexample :
    dist2 (⟨0, 0, 0⟩ : Vec3) < 4 ∧
    updateParticle 0 [⟨0, 0, 0⟩] 0 ⟨0, 0, 0⟩ = updateParticle 0 [] 0 ⟨0, 0, 0⟩ := by
  have hd : dist2 (⟨0, 0, 0⟩ : Vec3) = 0 := dist2_xaxis 0 0 le_rfl
  refine ⟨by rw [hd]; norm_num, ?_⟩
  rw [updateParticle_origin, hd, if_pos (by norm_num : (0:ℝ) < 4),
    updateParticle_nil, hd]
  simp [Vec3.mk.injEq]

/-- C5 (amended): with the single speed-0 interaction point at the origin
and zero wind, a particle with `dist > 4` is untouched, and a particle with
`0 < dist < 4` is pushed strictly farther from the origin (its output 2D
radius exceeds `dist`). -/
theorem C5_interaction_origin (time x0 y0 z0 : ℝ) :
    (4 < Real.sqrt (x0 * x0 + y0 * y0) →
      updateParticle time [⟨0, 0, 0⟩] 0 ⟨x0, y0, z0⟩
        = updateParticle time [] 0 ⟨x0, y0, z0⟩) ∧
    (0 < Real.sqrt (x0 * x0 + y0 * y0) → Real.sqrt (x0 * x0 + y0 * y0) < 4 →
      Real.sqrt (x0 * x0 + y0 * y0) <
        Real.sqrt
          ((updateParticle time [⟨0, 0, 0⟩] 0 ⟨x0, y0, z0⟩).x
              * (updateParticle time [⟨0, 0, 0⟩] 0 ⟨x0, y0, z0⟩).x
            + (updateParticle time [⟨0, 0, 0⟩] 0 ⟨x0, y0, z0⟩).y
              * (updateParticle time [⟨0, 0, 0⟩] 0 ⟨x0, y0, z0⟩).y)) := by
  constructor
  · intro h4
    rw [updateParticle_origin, if_neg (by rw [dist2_mk]; linarith)]
  · intro hpos h4
    rw [updateParticle_origin, if_pos (by rw [dist2_mk]; exact h4)]
    rw [dist2_mk]
    set d := Real.sqrt (x0 * x0 + y0 * y0) with hdd
    set θ := currentAngle time ⟨x0, y0, z0⟩ with hθ
    set c := 1 + (4 - d) / 4 * 0.3 with hc
    have hc1 : 1 < c := by
      rw [hc]
      nlinarith
    have hc0 : 0 ≤ c := by linarith
    simp only [zero_mul, add_zero, mul_zero]
    have hval : Real.cos θ * d * c * (Real.cos θ * d * c)
        + Real.sin θ * d * c * (Real.sin θ * d * c)
        = (d * c) ^ 2 * (Real.sin θ ^ 2 + Real.cos θ ^ 2) := by ring
    rw [hval, Real.sin_sq_add_cos_sq, mul_one,
      Real.sqrt_sq (mul_nonneg (Real.sqrt_nonneg _) hc0)]
    nlinarith

theorem C5_interaction_origin_witness :
    (4:ℝ) < Real.sqrt (5 * 5 + 0 * 0) ∧
    (0:ℝ) < Real.sqrt (1 * 1 + 0 * 0) ∧ Real.sqrt ((1:ℝ) * 1 + 0 * 0) < 4 ∧
    updateParticle 0 [⟨0, 0, 0⟩] 0 ⟨5, 0, 0⟩ = updateParticle 0 [] 0 ⟨5, 0, 0⟩ ∧
    Real.sqrt ((1:ℝ) * 1 + 0 * 0) <
      Real.sqrt
        ((updateParticle 0 [⟨0, 0, 0⟩] 0 ⟨1, 0, 0⟩).x
            * (updateParticle 0 [⟨0, 0, 0⟩] 0 ⟨1, 0, 0⟩).x
          + (updateParticle 0 [⟨0, 0, 0⟩] 0 ⟨1, 0, 0⟩).y
            * (updateParticle 0 [⟨0, 0, 0⟩] 0 ⟨1, 0, 0⟩).y) := by
  have h5 : Real.sqrt ((5:ℝ) * 5 + 0 * 0) = 5 := by
    simpa using Real.sqrt_mul_self (by norm_num : (0:ℝ) ≤ 5)
  have h1 : Real.sqrt ((1:ℝ) * 1 + 0 * 0) = 1 := by
    simpa using Real.sqrt_mul_self (by norm_num : (0:ℝ) ≤ 1)
  exact ⟨by rw [h5]; norm_num, by rw [h1]; norm_num, by rw [h1]; norm_num,
    (C5_interaction_origin 0 5 0 0).1 (by rw [h5]; norm_num),
    (C5_interaction_origin 0 1 0 0).2 (by rw [h1]; norm_num) (by rw [h1]; norm_num)⟩

/-- C6: `upsert` inserts with `vx = vy = 0` for a fresh id, derives
`vx = x − lastX`, `vy = y − lastY` from the separately stored raw position
for a known id (updating that stored position), removal deletes the id from
both maps, and re-upserting a removed id starts again at zero velocity. -/
theorem C6_upsert_semantics (m : PointerState) (id : Nat) (x y lx ly : ℝ) :
    (m.lastPointerPositions id = none →
      (upsert m id x y).interactionPoints id = some ⟨x, y, 0, 0⟩ ∧
      (upsert m id x y).lastPointerPositions id = some (x, y)) ∧
    (m.lastPointerPositions id = some (lx, ly) →
      (upsert m id x y).interactionPoints id = some ⟨x, y, x - lx, y - ly⟩ ∧
      (upsert m id x y).lastPointerPositions id = some (x, y)) ∧
    (handlePointerUp m id).interactionPoints id = none ∧
    (handlePointerUp m id).lastPointerPositions id = none ∧
    (upsert (handlePointerUp m id) id x y).interactionPoints id = some ⟨x, y, 0, 0⟩ := by
  refine ⟨?_, ?_, ?_, ?_, ?_⟩
  · intro h
    constructor <;> simp [upsert, h, handlePointerDown]
  · intro h
    constructor <;> simp [upsert, h, handlePointerMove]
  · simp [handlePointerUp]
  · simp [handlePointerUp]
  · simp [upsert, handlePointerUp, handlePointerDown]

theorem C6_upsert_semantics_witness :
    emptyPointers.lastPointerPositions 0 = none ∧
    ((upsert emptyPointers 0 1 2).interactionPoints 0 = some ⟨1, 2, 0, 0⟩ ∧
      (upsert emptyPointers 0 1 2).lastPointerPositions 0 = some (1, 2)) ∧
    (upsert emptyPointers 0 1 2).lastPointerPositions 0 = some (1, 2) ∧
    ((upsert (upsert emptyPointers 0 1 2) 0 3 5).interactionPoints 0
        = some ⟨3, 5, 3 - 1, 5 - 2⟩ ∧
      (upsert (upsert emptyPointers 0 1 2) 0 3 5).lastPointerPositions 0 = some (3, 5)) ∧
    (upsert (handlePointerUp emptyPointers 0) 0 1 2).interactionPoints 0
        = some ⟨1, 2, 0, 0⟩ := by
  refine ⟨rfl, (C6_upsert_semantics emptyPointers 0 1 2 0 0).1 rfl, rfl,
    (C6_upsert_semantics (upsert emptyPointers 0 1 2) 0 3 5 1 2).2.1 rfl,
    (C6_upsert_semantics emptyPointers 0 1 2 0 0).2.2.2.2⟩

/-- C7: with the gesture signal inactive, the per-frame smoothing step at
α = 0.05 never increases the wind magnitude and strictly decreases it
whenever the wind is nonzero. -/
theorem C7_wind_decay (time vw vh : ℝ) (pts : List RawPoint)
    (hand : HandInfluence) (s : FrameState) (h : hand.active = false) :
    |(useFrameStep time vw vh pts hand s).windVelocity| ≤ |s.windVelocity| ∧
    (s.windVelocity ≠ 0 →
      |(useFrameStep time vw vh pts hand s).windVelocity| < |s.windVelocity|) := by
  have hwind : (useFrameStep time vw vh pts hand s).windVelocity
      = 0.95 * s.windVelocity := by
    simp [useFrameStep, lerp, targetWind, h]
    ring
  rw [hwind, abs_mul]
  have h95 : |(0.95:ℝ)| = 0.95 := by norm_num
  rw [h95]
  constructor
  · nlinarith [abs_nonneg s.windVelocity]
  · intro hne
    have hp : 0 < |s.windVelocity| := abs_pos.mpr hne
    nlinarith

theorem C7_wind_decay_witness :
    inactiveHand.active = false ∧ s7demo.windVelocity ≠ 0 ∧
    |(useFrameStep 0 1 1 [] inactiveHand s7demo).windVelocity| < |s7demo.windVelocity| :=
  ⟨rfl, one_ne_zero,
    (C7_wind_decay 0 1 1 [] inactiveHand s7demo rfl).2 one_ne_zero⟩

/-- C8: a frame invocation leaves the color, size, phase and angle arrays
and the initial-position baseline untouched, and its output positions do
not depend on the position array of the previous frame — they are recomputed
from the baseline alone. -/
theorem C8_frame_effects (time vw vh : ℝ) (pts : List RawPoint)
    (hand : HandInfluence) (s : FrameState) :
    (useFrameStep time vw vh pts hand s).colors = s.colors ∧
    (useFrameStep time vw vh pts hand s).sizes = s.sizes ∧
    (useFrameStep time vw vh pts hand s).phases = s.phases ∧
    (useFrameStep time vw vh pts hand s).angles = s.angles ∧
    (useFrameStep time vw vh pts hand s).initialPositions = s.initialPositions ∧
    (∀ prev : List Vec3,
      (useFrameStep time vw vh pts hand { s with positions := prev }).positions =
        (useFrameStep time vw vh pts hand s).positions) :=
  ⟨rfl, rfl, rfl, rfl, rfl, fun _ => rfl⟩

/-- C9 (refutation): the code applies no sanity clamp — an out-of-range
`velocityX` of `10⁶` with `active = true` drives the smoothed wind to
`−750000`, not to the inactive-signal value `0`. -/
theorem C9_counterexample :
    (useFrameStep 0 1 1 [] ⟨0, 0, 1000000, 0, true⟩ s0demo).windVelocity ≠
    (useFrameStep 0 1 1 [] ⟨0, 0, 1000000, 0, false⟩ s0demo).windVelocity := by
  norm_num [useFrameStep, targetWind, lerp, s0demo]

/-- C9 (amended): the core never sanitizes the gesture signal — with
`active = true` the wind target is `velocityX · (−15)` for every
`velocityX`, and whenever `velocityX ≠ 0` the smoothed wind differs from
what the inactive signal would give. -/
theorem C9_no_clamp (time vw vh : ℝ) (pts : List RawPoint) (s : FrameState)
    (hx hy vx vy : ℝ) :
    (useFrameStep time vw vh pts ⟨hx, hy, vx, vy, true⟩ s).windVelocity
        = lerp s.windVelocity (vx * (-15)) 0.05 ∧
    (vx ≠ 0 →
      (useFrameStep time vw vh pts ⟨hx, hy, vx, vy, true⟩ s).windVelocity ≠
      (useFrameStep time vw vh pts ⟨hx, hy, vx, vy, false⟩ s).windVelocity) := by
  constructor
  · simp [useFrameStep, targetWind]
  · intro hvx heq
    simp [useFrameStep, targetWind, lerp] at heq
    apply hvx
    linarith

theorem C9_no_clamp_witness :
    (2:ℝ) ≠ 0 ∧
    (useFrameStep 0 1 1 [] ⟨0, 0, 2, 0, true⟩ s7demo).windVelocity ≠
      (useFrameStep 0 1 1 [] ⟨0, 0, 2, 0, false⟩ s7demo).windVelocity :=
  ⟨two_ne_zero, (C9_no_clamp 0 1 1 [] s7demo 0 0 2 0).2 two_ne_zero⟩

/-- C10: with every random draw in `[0,1)`, an initialized particle has 2D
radius in `[1,15)` and depth in `[-2,2)`, hence `dist < 20` and a strictly
positive wind attenuation factor `1 − dist/20`. -/
theorem C10_init_invariant (rAngle rRadius rZ : ℝ)
    (h1 : 0 ≤ rAngle) (h2 : rAngle < 1) (h3 : 0 ≤ rRadius) (h4 : rRadius < 1)
    (h5 : 0 ≤ rZ) (h6 : rZ < 1) :
    1 ≤ dist2 (initParticle rAngle rRadius rZ) ∧
    dist2 (initParticle rAngle rRadius rZ) < 15 ∧
    -2 ≤ (initParticle rAngle rRadius rZ).z ∧
    (initParticle rAngle rRadius rZ).z < 2 ∧
    dist2 (initParticle rAngle rRadius rZ) < 20 ∧
    0 < 1.0 - dist2 (initParticle rAngle rRadius rZ) / 20.0 := by
  have hR : randomRange 1 15 rRadius = rRadius * 14 + 1 := by
    show rRadius * (15 - 1) + 1 = rRadius * 14 + 1
    norm_num
  have hRpos : 0 ≤ randomRange 1 15 rRadius := by
    rw [hR]
    linarith
  have hd : dist2 (initParticle rAngle rRadius rZ) = randomRange 1 15 rRadius := by
    simp only [dist2, initParticle]
    exact radius_of_rot _ _ hRpos
  have hz : (initParticle rAngle rRadius rZ).z = (rZ - 0.5) * 4 := rfl
  rw [hd, hR, hz]
  refine ⟨by linarith, by linarith, by linarith, by linarith, by linarith, by linarith⟩

theorem C10_init_invariant_witness :
    (0:ℝ) ≤ 0 ∧ (0:ℝ) < 1 ∧
    (1 ≤ dist2 (initParticle 0 0 0) ∧
      dist2 (initParticle 0 0 0) < 15 ∧
      -2 ≤ (initParticle 0 0 0).z ∧
      (initParticle 0 0 0).z < 2 ∧
      dist2 (initParticle 0 0 0) < 20 ∧
      0 < 1.0 - dist2 (initParticle 0 0 0) / 20.0) :=
  ⟨le_refl 0, by norm_num,
    C10_init_invariant 0 0 0 (le_refl 0) (by norm_num) (le_refl 0) (by norm_num)
      (le_refl 0) (by norm_num)⟩

end

end Xingkong
